import Mathlib

/-!
# ObiWAN: a shallow embedding of the Python binding layer and the spec-modelled core

The repository holds the generated Python bindings of the ObiWAN Gemini
client/server library (`src/bindings/generated/python/obiwan.py` and the
older, broken `src/bindings/generated/obiwan.py`).  The native core (the Nim
engine behind `libobiwan`) is not part of the repository, so the binding
functions call into an abstract `Native` interface; parts of the core that
claims depend on (status-class derivation, redirect controller, certificate
trust classifier) are modelled from the specification and marked as such.
-/

namespace Obiwan

/-! ## Status codes (src/bindings/generated/python/obiwan.py, class Status, lines 38-56) -/

namespace Status

def INPUT : Nat := 10
def SENSITIVE_INPUT : Nat := 11
def SUCCESS : Nat := 20
def TEMP_REDIRECT : Nat := 30
def REDIRECT : Nat := 31
def TEMP_ERROR : Nat := 40
def SERVER_UNAVAILABLE : Nat := 41
def CGI_ERROR : Nat := 42
def PROXY_ERROR : Nat := 43
def SLOWDOWN : Nat := 44
def ERROR : Nat := 50
def NOT_FOUND : Nat := 51
def GONE : Nat := 52
def PROXY_REFUSED : Nat := 53
def MALFORMED_REQUEST : Nat := 59
def CERTIFICATE_REQUIRED : Nat := 60
def CERTIFICATE_UNAUTHORIZED : Nat := 61
def CERTIFICATE_NOT_VALID : Nat := 62

end Status

/-- The members of the `Status` class, in source order. -/
def statusCodes : List Nat :=
  [Status.INPUT, Status.SENSITIVE_INPUT, Status.SUCCESS, Status.TEMP_REDIRECT,
   Status.REDIRECT, Status.TEMP_ERROR, Status.SERVER_UNAVAILABLE, Status.CGI_ERROR,
   Status.PROXY_ERROR, Status.SLOWDOWN, Status.ERROR, Status.NOT_FOUND, Status.GONE,
   Status.PROXY_REFUSED, Status.MALFORMED_REQUEST, Status.CERTIFICATE_REQUIRED,
   Status.CERTIFICATE_UNAUTHORIZED, Status.CERTIFICATE_NOT_VALID]

/-- The six documented status classes plus a catch-all for tens digits outside 1-6. -/
inductive StatusClass where
  | input
  | success
  | redirect
  | tempFailure
  | permFailure
  | certificate
  | other
deriving DecidableEq, Repr

/-- Modelled from the spec: the core's status-class derivation is in the Nim
engine, which is not under `src/`.  Per the spec, a status code's class is a
pure function of its tens digit: 1x input, 2x success, 3x redirect,
4x temporary failure, 5x permanent failure, 6x certificate-related. -/
def statusClass (n : Nat) : StatusClass :=
  match n / 10 with
  | 1 => .input
  | 2 => .success
  | 3 => .redirect
  | 4 => .tempFailure
  | 5 => .permFailure
  | 6 => .certificate
  | _ => .other

/-! ## The native library interface

The Python binding calls into `libobiwan` through `ctypes`.  The native side is
abstract here: a `Native` value fixes what each foreign function returns.
Handles (`c_void_p`) are naturals; a `ctypes` NULL pointer (returned as Python
`None`) is `Option.none`, and a `c_char_p` result is `Option String`
(`none` for NULL). -/

structure Native where
  createClient : Int → String → String → Option Nat
  requestUrl : Nat → String → Option Nat
  createServer : Bool → Bool → String → String → String → Option Nat
  getResponseStatus : Nat → Int
  getResponseMeta : Nat → Option String
  getResponseBody : Nat → Option String
  responseHasCertificate : Nat → Bool
  responseIsVerified : Nat → Bool
  responseIsSelfSigned : Nat → Bool
  hasErrorFlag : Bool
  lastError : Option String

/-- A record of one call into the native library, used to state which foreign
functions an operation performed. -/
inductive NativeCall where
  | createClient (maxRedirects : Int) (certFile keyFile : String)
  | requestUrl (handle : Nat) (url : String)
  | createServer (reuseAddr reusePort : Bool) (certFile keyFile sessionId : String)
  | getResponseBody (handle : Nat)
  | destroyClient (handle : Nat)
  | destroyServer (handle : Nat)
  | destroyResponse (handle : Nat)
deriving DecidableEq, Repr

/-- A Python `RuntimeError` raised across the binding. -/
inductive PyError where
  | runtimeError (msg : String)
deriving DecidableEq, Repr

/-! ## Error side-channel helpers (obiwan.py lines 113-122) -/

/-- `checkError()`: returns `_lib.hasError()`. -/
def checkError (native : Native) : Bool :=
  native.hasErrorFlag

/-- `takeError()`: reads `_lib.getLastError()`; a NULL pointer or an empty
string (both falsy in Python) yield `None`. -/
def takeError (native : Native) : Option String :=
  match native.lastError with
  | some e => if e = "" then none else some e
  | none => none

/-! ## Response (obiwan.py lines 124-189) -/

/-- The Python-side state of a `Response` object: the native handle (cleared by
`__del__`), the `_status` and `_meta` captured in `__init__`, and the lazily
filled `_body_cached`. -/
structure Response where
  handle : Option Nat
  status : Int
  meta : String
  bodyCached : Option String
deriving DecidableEq, Repr

/-- `Response.__init__(handle)`: reads the status and meta through the native
library once and stores them; the body cache starts empty. -/
def Response.fromHandle (native : Native) (h : Nat) : Response :=
  { handle := some h
    status := native.getResponseStatus h
    meta := (native.getResponseMeta h).getD ""
    bodyCached := none }

/-- `Response.body()`: fetches the body through the native library only when
the cache is empty, the handle is live and the status equals `Status.SUCCESS`
(the literal 20); otherwise returns the cache as is.  A NULL body pointer is
cached as the empty string.  Returns the visible result, the updated object
state, and the native calls made. -/
def Response.body (native : Native) (r : Response) :
    Option String × Response × List NativeCall :=
  match r.handle with
  | some h =>
      if r.bodyCached = none ∧ r.status = (Status.SUCCESS : Nat) then
        let fetched := (native.getResponseBody h).getD ""
        (some fetched, { r with bodyCached := some fetched }, [.getResponseBody h])
      else
        (r.bodyCached, r, [])
  | none => (r.bodyCached, r, [])

/-- `Response.__del__`: destroys the native handle when still live and clears
it; a second call does nothing. -/
def Response.release (r : Response) : Response × List NativeCall :=
  match r.handle with
  | some h => ({ r with handle := none }, [.destroyResponse h])
  | none => (r, [])

/-- `Response.hasCertificate()`: forwards to the native library while the
handle is live, `False` afterwards. -/
def Response.hasCertificate (native : Native) (r : Response) : Bool :=
  match r.handle with
  | some h => native.responseHasCertificate h
  | none => false

/-- `Response.isVerified()`: forwards to the native library while the handle is
live, `False` afterwards. -/
def Response.isVerified (native : Native) (r : Response) : Bool :=
  match r.handle with
  | some h => native.responseIsVerified h
  | none => false

/-- `Response.isSelfSigned()`: forwards to the native library while the handle
is live, `False` afterwards. -/
def Response.isSelfSigned (native : Native) (r : Response) : Bool :=
  match r.handle with
  | some h => native.responseIsSelfSigned h
  | none => false

/-! ## ObiwanClient (obiwan.py lines 191-231) -/

/-- The Python-side state of an `ObiwanClient`: just the native handle, cleared
by `close()`. -/
structure ObiwanClient where
  handle : Option Nat
deriving DecidableEq, Repr

/-- `ObiwanClient.__init__(max_redirects, cert_file, key_file)`: calls
`createClient`; a NULL handle raises a `RuntimeError` whose message carries the
side-channel error text when one is available. -/
def ObiwanClient.create (native : Native) (maxRedirects : Int)
    (certFile keyFile : String) : Except PyError ObiwanClient :=
  match native.createClient maxRedirects certFile keyFile with
  | some h => .ok { handle := some h }
  | none =>
      match takeError native with
      | some e => .error (.runtimeError ("Failed to create ObiwanClient: " ++ e))
      | none => .error (.runtimeError "Failed to create ObiwanClient")

/-- `ObiwanClient.close()`: destroys the native handle when still live and
clears it; on an already-closed client it does nothing. -/
def ObiwanClient.close (c : ObiwanClient) : ObiwanClient × List NativeCall :=
  match c.handle with
  | some h => ({ handle := none }, [.destroyClient h])
  | none => (c, [])

/-- `ObiwanClient.request(url)`: raises `RuntimeError "Client is closed"` with
no native call when the handle is gone; otherwise calls `requestUrl` and wraps
the returned handle in a `Response`, or raises a `RuntimeError` carrying the
side-channel error text when the native call yields no handle. -/
def ObiwanClient.request (native : Native) (c : ObiwanClient) (url : String) :
    Except PyError Response × List NativeCall :=
  match c.handle with
  | none => (.error (.runtimeError "Client is closed"), [])
  | some h =>
      match native.requestUrl h url with
      | some rh => (.ok (Response.fromHandle native rh), [.requestUrl h url])
      | none =>
          match takeError native with
          | some e => (.error (.runtimeError ("Request failed: " ++ e)), [.requestUrl h url])
          | none => (.error (.runtimeError "Request failed"), [.requestUrl h url])

/-! ## ObiwanServer (obiwan.py lines 233-259) -/

/-- The Python-side state of an `ObiwanServer`. -/
structure ObiwanServer where
  handle : Option Nat
deriving DecidableEq, Repr

/-- `ObiwanServer.__init__(reuse_addr, reuse_port, cert_file, key_file,
session_id)`: calls `createServer`; a NULL handle raises a `RuntimeError`
whose message carries the side-channel error text when one is available. -/
def ObiwanServer.create (native : Native) (reuseAddr reusePort : Bool)
    (certFile keyFile sessionId : String) : Except PyError ObiwanServer :=
  match native.createServer reuseAddr reusePort certFile keyFile sessionId with
  | some h => .ok { handle := some h }
  | none =>
      match takeError native with
      | some e => .error (.runtimeError ("Failed to create ObiwanServer: " ++ e))
      | none => .error (.runtimeError "Failed to create ObiwanServer")

/-! ## Redirect controller (spec section 4.6)

The redirect loop lives in the Nim core, which is not under `src/`; it is
modelled from the spec here.  State per the spec: a visited counter starting
at 0, bounded by `maxRedirects`; on a redirect-class response the counter is
incremented and the loop aborts with `TooManyRedirects` carrying the last
redirect response once the counter exceeds `maxRedirects`, otherwise the loop
re-issues against the target taken from `meta`.  Equivalently, the loop below
carries the number of redirects it may still follow. -/

/-- Modelled from the spec: the status+meta header of one response as seen by
the core's redirect controller (the core's `Response` type is not under
`src/`). -/
structure SpecResponse where
  status : Nat
  meta : String
deriving DecidableEq, Repr

/-- Outcome of the client request loop: a terminal (non-redirect) response, or
the redirect bound exhausted, carrying the last redirect response. -/
inductive RequestResult where
  | success (r : SpecResponse)
  | tooManyRedirects (last : SpecResponse)
deriving DecidableEq, Repr

/-- Whether a `RequestResult` delivers a terminal response. -/
def RequestResult.isSuccess : RequestResult → Bool
  | .success _ => true
  | .tooManyRedirects _ => false

/-- Modelled from the spec: one round of the redirect controller with
`remaining` redirects still allowed to be followed.  Issues the request for
`url` against the abstract `server`; a non-redirect status terminates the
loop; a redirect with no budget left yields `TooManyRedirects` carrying that
response; otherwise the loop follows the target in `meta`.  Also returns the
list of URLs actually requested, in order. -/
def redirectLoop (server : String → SpecResponse) :
    Nat → String → RequestResult × List String
  | 0, url =>
      let resp := server url
      if statusClass resp.status = .redirect then (.tooManyRedirects resp, [url])
      else (.success resp, [url])
  | remaining + 1, url =>
      let resp := server url
      if statusClass resp.status = .redirect then
        let rest := redirectLoop server remaining resp.meta
        (rest.1, url :: rest.2)
      else (.success resp, [url])

/-- Modelled from the spec: the client request loop with bound `maxRedirects`;
the visited counter starts at 0, so exactly `maxRedirects` redirects may be
followed before the bound is exhausted. -/
def clientRequest (server : String → SpecResponse) (maxRedirects : Nat)
    (url : String) : RequestResult × List String :=
  redirectLoop server maxRedirects url

/-! ## Certificate trust classifier (spec section 4.4)

The classifier lives in the Nim core, which is not under `src/`; it is
modelled from the spec here. -/

/-- A verification problem reported by the TLS handshake. -/
inductive CertProblem where
  | trustAnchor
  | expired
  | hostnameMismatch
  | otherProblem
deriving DecidableEq, Repr

/-- Modelled from the spec: the raw post-handshake verification result — was a
peer certificate presented, did the chain verify against a trusted root, and
the list of reported verification problems. -/
structure HandshakeResult where
  certPresented : Bool
  chainVerified : Bool
  problems : List CertProblem
deriving DecidableEq, Repr

/-- The three certificate facts attached to a response. -/
structure CertificateInfo where
  hasCertificate : Bool
  isVerified : Bool
  isSelfSigned : Bool
deriving DecidableEq, Repr

/-- Modelled from the spec: the certificate trust classifier.
`hasCertificate` = a peer certificate was presented at all; `isVerified` =
the chain verified against a trusted root with zero reported problems;
`isSelfSigned` = a certificate was presented, full verification failed, and
the only reported problem is the trust-anchor/self-signature issue.  Any
other combination leaves both `isVerified` and `isSelfSigned` false. -/
def classify (r : HandshakeResult) : CertificateInfo :=
  { hasCertificate := r.certPresented
    isVerified := r.certPresented && r.chainVerified && r.problems.isEmpty
    isSelfSigned := r.certPresented && !(r.chainVerified && r.problems.isEmpty)
      && decide (r.problems = [.trustAnchor]) }

/-! ## The broken binding variant (src/bindings/generated/obiwan.py)

The older generated binding defines its status constants with chained
assignments of the shape `INPUT = 10 = 0`, whose second target is an integer
literal, and declares foreign-function result types with the unbound name
`Natural`.  The fragment of Python relevant to whether that module can load
is embedded here: an assignment statement's targets, their validity under the
Python grammar (a literal is not a valid assignment target), and the set of
names the module has in scope at top level. -/

/-- An assignment target as written in the module: a plain name or an integer
literal. -/
inductive PyTarget where
  | name (s : String)
  | intLit (n : Nat)
deriving DecidableEq, Repr

/-- Python grammar: a name is a valid assignment target, a literal is not
(CPython rejects `10 = 0` at compile time with "cannot assign to literal"). -/
def PyTarget.valid : PyTarget → Bool
  | .name _ => true
  | .intLit _ => false

/-- One (possibly chained) assignment statement: its targets left to right and
the final integer value. -/
structure PyAssign where
  targets : List PyTarget
  value : Nat
deriving DecidableEq, Repr

/-- A chained assignment compiles only when every target is valid. -/
def PyAssign.syntaxValid (a : PyAssign) : Bool :=
  a.targets.all PyTarget.valid

/-- The eighteen status-constant statements of
`src/bindings/generated/obiwan.py` lines 31-48, literally: each line
`NAME = code = index` is a chained assignment whose targets are the name and
the integer literal `code`. -/
def statusAssigns : List PyAssign :=
  [⟨[.name "INPUT", .intLit 10], 0⟩,
   ⟨[.name "SENSITIVE_INPUT", .intLit 11], 1⟩,
   ⟨[.name "SUCCESS", .intLit 20], 2⟩,
   ⟨[.name "TEMP_REDIRECT", .intLit 30], 3⟩,
   ⟨[.name "REDIRECT", .intLit 31], 4⟩,
   ⟨[.name "TEMP_ERROR", .intLit 40], 5⟩,
   ⟨[.name "SERVER_UNAVAILABLE", .intLit 41], 6⟩,
   ⟨[.name "CGIERROR", .intLit 42], 7⟩,
   ⟨[.name "PROXY_ERROR", .intLit 43], 8⟩,
   ⟨[.name "SLOWDOWN", .intLit 44], 9⟩,
   ⟨[.name "ERROR", .intLit 50], 10⟩,
   ⟨[.name "NOT_FOUND", .intLit 51], 11⟩,
   ⟨[.name "GONE", .intLit 52], 12⟩,
   ⟨[.name "PROXY_REFUSED", .intLit 53], 13⟩,
   ⟨[.name "MALFORMED_REQUEST", .intLit 59], 14⟩,
   ⟨[.name "CERTIFICATE_REQUIRED", .intLit 60], 15⟩,
   ⟨[.name "CERTIFICATE_UNAUTHORIZED", .intLit 61], 16⟩,
   ⟨[.name "CERTIFICATE_NOT_VALID", .intLit 62], 17⟩]

/-- The names `src/bindings/generated/obiwan.py` has in scope at module top
level: the `ctypes` star import's public names it uses, the `os`/`sys`
imports, and every name the module itself binds (were its own statements all
valid). -/
def generatedModuleNames : List String :=
  ["cdll", "c_byte", "c_bool", "c_char_p", "c_longlong", "c_ulonglong",
   "Structure", "os", "sys", "dir", "libName", "dll", "obiwanError",
   "SeqIterator", "Status", "INPUT", "SENSITIVE_INPUT", "SUCCESS",
   "TEMP_REDIRECT", "REDIRECT", "TEMP_ERROR", "SERVER_UNAVAILABLE", "CGIERROR",
   "PROXY_ERROR", "SLOWDOWN", "ERROR", "NOT_FOUND", "GONE", "PROXY_REFUSED",
   "MALFORMED_REQUEST", "CERTIFICATE_REQUIRED", "CERTIFICATE_UNAUTHORIZED",
   "CERTIFICATE_NOT_VALID", "ObiwanClient", "ObiwanServer", "Response",
   "check_error", "take_error"]

/-- Python compiles a whole module before executing any of it: the module body
compiles only when every one of its assignment statements is syntactically
valid. -/
def generatedModuleCompiles : Bool :=
  statusAssigns.all PyAssign.syntaxValid

/-- A module loads when its body compiles and every name its top-level
statements read is in scope; `Natural`, used on lines 232 and 234 as a
foreign-function result/argument type, would also have to be in scope. -/
def generatedModuleLoads : Bool :=
  generatedModuleCompiles && generatedModuleNames.contains "Natural"

/-- The operations `src/bindings/generated/obiwan.py` declares. -/
def generatedModuleOps : List String :=
  ["ObiwanClient.__init__", "ObiwanClient.request", "ObiwanClient.close",
   "ObiwanServer.__init__", "Response.status", "Response.meta",
   "Response.body", "Response.has_certificate", "Response.is_verified",
   "Response.is_self_signed", "check_error", "take_error"]

/-- A Python function defined in a module is callable only once the module has
loaded: nothing below a compile error is ever executed, so no class or
function object is created. -/
def generatedOpCallable (op : String) : Bool :=
  generatedModuleLoads && generatedModuleOps.contains op

/-! ## Auxiliary definitions for the theorems -/

/-- Whether a binding operation returned a value rather than raising a Python
exception. -/
def pyOk {α : Type} : Except PyError α → Bool
  | .ok _ => true
  | .error _ => false

/-- The public operations of a `Response` object, used to quantify over
arbitrary call sequences.  `readStr` is `__str__`, whose only state effect is
the `body()` call it makes. -/
inductive ROp where
  | readStatus
  | readMeta
  | readBody
  | readStr
  | release
  | readHasCertificate
  | readIsVerified
  | readIsSelfSigned
deriving DecidableEq, Repr

/-- The state effect of one public `Response` operation: only `body()` (also
via `__str__`) and `__del__` change the object's fields. -/
def applyROp (native : Native) (r : Response) : ROp → Response
  | .readBody => (r.body native).2.1
  | .readStr => (r.body native).2.1
  | .release => r.release.1
  | _ => r

/-- A native library in which every operation succeeds: client handle 1,
response handle 2, server handle 3, a 20 response with body `"hello"`. -/
def baseNative : Native :=
  { createClient := fun _ _ _ => some 1
    requestUrl := fun _ _ => some 2
    createServer := fun _ _ _ _ _ => some 3
    getResponseStatus := fun _ => 20
    getResponseMeta := fun _ => some "text/gemini"
    getResponseBody := fun _ => some "hello"
    responseHasCertificate := fun _ => false
    responseIsVerified := fun _ => false
    responseIsSelfSigned := fun _ => false
    hasErrorFlag := false
    lastError := none }

/-! ## C2: status and meta are fixed at construction -/

theorem applyROp_preserves_status_meta (native : Native) (r : Response) (op : ROp) :
    (applyROp native r op).status = r.status ∧ (applyROp native r op).meta = r.meta := by
  obtain ⟨hd, st, mt, bc⟩ := r
  cases op <;> cases hd <;>
    simp [applyROp, Response.body, Response.release] <;> (try split) <;> simp

theorem foldl_ROp_preserves (native : Native) (ops : List ROp) (r : Response) :
    (ops.foldl (applyROp native) r).status = r.status
    ∧ (ops.foldl (applyROp native) r).meta = r.meta := by
  induction ops generalizing r with
  | nil => exact ⟨rfl, rfl⟩
  | cons op rest ih =>
      rw [List.foldl_cons]
      obtain ⟨ih1, ih2⟩ := ih (applyROp native r op)
      obtain ⟨p1, p2⟩ := applyROp_preserves_status_meta native r op
      exact ⟨ih1.trans p1, ih2.trans p2⟩

/-- C2: once a `Response` is constructed from a handle, its `status` and
`meta` are the values read at construction, and they survive every sequence of
public operations (`body()`, `__str__`, `__del__`, the certificate reads and
the property reads): no operation of the public interface alters them. -/
theorem c2_response_status_meta_immutable (native : Native) (h : Nat) (ops : List ROp) :
    (ops.foldl (applyROp native) (Response.fromHandle native h)).status
        = native.getResponseStatus h
    ∧ (ops.foldl (applyROp native) (Response.fromHandle native h)).meta
        = (native.getResponseMeta h).getD "" :=
  foldl_ROp_preserves native ops (Response.fromHandle native h)

/-! ## C4: certificate-info invariants -/

/-- A native library whose certificate facts are the classifier's output on a
given handshake result, with every other operation as in `baseNative`. -/
def certNative (hr : HandshakeResult) : Native :=
  { baseNative with
    responseHasCertificate := fun _ => (classify hr).hasCertificate
    responseIsVerified := fun _ => (classify hr).isVerified
    responseIsSelfSigned := fun _ => (classify hr).isSelfSigned }

/-- The handshake result of a typical Gemini server: certificate presented,
chain unverified, the trust anchor its only problem. -/
def hrSelfSigned : HandshakeResult :=
  { certPresented := true, chainVerified := false, problems := [.trustAnchor] }

/-- C4: on every `Response` whose certificate facts come from the classifier
applied to some handshake result, `isSelfSigned()` implies `hasCertificate()`
and not `isVerified()`; `isVerified()` implies `hasCertificate()`; and
`isVerified()` and `isSelfSigned()` are never both true. -/
theorem c4_certificate_invariants (native : Native) (h : Nat) (hr : HandshakeResult)
    (e1 : native.responseHasCertificate h = (classify hr).hasCertificate)
    (e2 : native.responseIsVerified h = (classify hr).isVerified)
    (e3 : native.responseIsSelfSigned h = (classify hr).isSelfSigned) :
    ((Response.fromHandle native h).isSelfSigned native = true →
        (Response.fromHandle native h).hasCertificate native = true
        ∧ (Response.fromHandle native h).isVerified native = false)
    ∧ ((Response.fromHandle native h).isVerified native = true →
        (Response.fromHandle native h).hasCertificate native = true)
    ∧ ((Response.fromHandle native h).isVerified native
        && (Response.fromHandle native h).isSelfSigned native) = false := by
  obtain ⟨p, v, probs⟩ := hr
  by_cases hp : probs = [CertProblem.trustAnchor] <;>
    cases p <;> cases v <;> cases probs <;>
      simp_all [Response.fromHandle, Response.isSelfSigned, Response.hasCertificate,
        Response.isVerified, classify]

/-- C4 witness: the self-signed handshake result is classified with all three
invariants holding on the resulting `Response`. -/
theorem c4_certificate_invariants_witness :
    (Response.fromHandle (certNative hrSelfSigned) 2).hasCertificate (certNative hrSelfSigned) = true
    ∧ (Response.fromHandle (certNative hrSelfSigned) 2).isVerified (certNative hrSelfSigned) = false :=
  (c4_certificate_invariants (certNative hrSelfSigned) 2 hrSelfSigned rfl rfl rfl).1 (by decide)

/-! ## C6: the status taxonomy and tens-digit classification -/

/-- C6: the `Status` class enumerates exactly the 18 documented two-digit
codes, and the class of a code is a pure function of its tens digit (so 30 and
31 are both redirects, and any two codes with equal tens digit share a class);
the 18 codes fall in the six documented classes. -/
theorem c6_status_taxonomy :
    statusCodes = [10, 11, 20, 30, 31, 40, 41, 42, 43, 44, 50, 51, 52, 53, 59, 60, 61, 62]
    ∧ statusCodes.length = 18
    ∧ (∀ m k : Nat, m / 10 = k / 10 → statusClass m = statusClass k)
    ∧ statusCodes.map statusClass =
        [.input, .input, .success, .redirect, .redirect,
         .tempFailure, .tempFailure, .tempFailure, .tempFailure, .tempFailure,
         .permFailure, .permFailure, .permFailure, .permFailure, .permFailure,
         .certificate, .certificate, .certificate] := by
  refine ⟨by decide, by decide, ?_, by decide⟩
  intro m k hmk
  unfold statusClass
  rw [hmk]

/-- C6 witness: the tens-digit rule applied at concrete codes — the
undocumented wire value 35 is classified exactly like the documented redirect
code 31. -/
theorem c6_status_taxonomy_witness : statusClass 35 = statusClass 31 :=
  c6_status_taxonomy.2.2.1 35 31 (by decide)

/-! ## C5: the boundary contract -/

/-- C5: the boundary contract of the binding — the client constructor takes
`(maxRedirects, certFile, keyFile)` and succeeds exactly when the native layer
yields a handle; `request(url)` yields a `Response` exactly when the native
layer yields a handle; `close()` clears the handle; the server constructor
takes `(reuseAddr, reusePort, certFile, keyFile, sessionId)` and succeeds
exactly when the native layer yields a handle; the `Response` accessors
`status`, `meta`, `body()`, `hasCertificate()`, `isVerified()`,
`isSelfSigned()` expose the native response facts; and the paired
`checkError()`/`takeError()` side-channel reports the native error flag and
message. -/
theorem c5_boundary_contract (native : Native) (n : Int) (cf kf sid url : String)
    (a p : Bool) (h rh : Nat) :
    pyOk (ObiwanClient.create native n cf kf) = (native.createClient n cf kf).isSome
    ∧ pyOk (ObiwanClient.request native ⟨some h⟩ url).1 = (native.requestUrl h url).isSome
    ∧ (ObiwanClient.close ⟨some h⟩).1.handle = none
    ∧ pyOk (ObiwanServer.create native a p cf kf sid)
        = (native.createServer a p cf kf sid).isSome
    ∧ (Response.fromHandle native rh).status = native.getResponseStatus rh
    ∧ (Response.fromHandle native rh).meta = (native.getResponseMeta rh).getD ""
    ∧ ((Response.fromHandle native rh).status = 20 →
        ((Response.fromHandle native rh).body native).1
          = some ((native.getResponseBody rh).getD ""))
    ∧ (Response.fromHandle native rh).hasCertificate native
        = native.responseHasCertificate rh
    ∧ (Response.fromHandle native rh).isVerified native = native.responseIsVerified rh
    ∧ (Response.fromHandle native rh).isSelfSigned native
        = native.responseIsSelfSigned rh
    ∧ checkError native = native.hasErrorFlag
    ∧ (∀ msg : String, native.lastError = some msg → msg ≠ "" →
        takeError native = some msg) := by
  refine ⟨?_, ?_, rfl, ?_, rfl, rfl, ?_, rfl, rfl, rfl, rfl, ?_⟩
  · (cases hc : native.createClient n cf kf <;> simp [ObiwanClient.create, hc, pyOk])
    cases takeError native <;> simp [pyOk]
  · (cases hc : native.requestUrl h url <;> simp [ObiwanClient.request, hc, pyOk])
    cases takeError native <;> simp [pyOk]
  · (cases hc : native.createServer a p cf kf sid <;> simp [ObiwanServer.create, hc, pyOk])
    cases takeError native <;> simp [pyOk]
  · intro h20
    simp [Response.fromHandle, Response.body] at h20 ⊢
    simp [h20, Status.SUCCESS]
  · intro msg hmsg hne
    simp [takeError, hmsg, hne]

/-! ## C7: failures are surfaced explicitly with the side-channel message -/

/-- A native library in which client creation, server creation and requests
all fail, with the side-channel message set. -/
def failNative : Native :=
  { baseNative with
    createClient := fun _ _ _ => none
    requestUrl := fun _ _ => none
    createServer := fun _ _ _ _ _ => none
    hasErrorFlag := true
    lastError := some "connection refused" }

/-- C7: when the native layer yields no handle, client creation, server
creation and `request(url)` each raise an error carrying the side-channel
message when one is available (and a generic message otherwise), and each of
these operations returns a value exactly when the native layer yielded a
handle: a `Response` is returned if and only if the request succeeded. -/
theorem c7_error_propagation (native : Native) (n : Int) (cf kf sid url msg : String)
    (a p : Bool) (h : Nat) :
    (native.createClient n cf kf = none → takeError native = some msg →
        ObiwanClient.create native n cf kf
          = .error (.runtimeError ("Failed to create ObiwanClient: " ++ msg)))
    ∧ (native.createClient n cf kf = none → takeError native = none →
        ObiwanClient.create native n cf kf
          = .error (.runtimeError "Failed to create ObiwanClient"))
    ∧ (native.createServer a p cf kf sid = none → takeError native = some msg →
        ObiwanServer.create native a p cf kf sid
          = .error (.runtimeError ("Failed to create ObiwanServer: " ++ msg)))
    ∧ (native.requestUrl h url = none → takeError native = some msg →
        (ObiwanClient.request native ⟨some h⟩ url).1
          = .error (.runtimeError ("Request failed: " ++ msg)))
    ∧ (∀ rh : Nat, native.requestUrl h url = some rh →
        (ObiwanClient.request native ⟨some h⟩ url).1
          = .ok (Response.fromHandle native rh))
    ∧ pyOk (ObiwanClient.request native ⟨some h⟩ url).1
        = (native.requestUrl h url).isSome
    ∧ pyOk (ObiwanClient.create native n cf kf) = (native.createClient n cf kf).isSome := by
  refine ⟨?_, ?_, ?_, ?_, ?_, ?_, ?_⟩
  · intro hc he
    simp [ObiwanClient.create, hc, he]
  · intro hc he
    simp [ObiwanClient.create, hc, he]
  · intro hc he
    simp [ObiwanServer.create, hc, he]
  · intro hc he
    simp [ObiwanClient.request, hc, he]
  · intro rh hc
    simp [ObiwanClient.request, hc]
  · (cases hc : native.requestUrl h url <;> simp [ObiwanClient.request, hc, pyOk])
    cases takeError native <;> simp [pyOk]
  · (cases hc : native.createClient n cf kf <;> simp [ObiwanClient.create, hc, pyOk])
    cases takeError native <;> simp [pyOk]

/-- C7 witness: against a native layer in which every operation fails with
message "connection refused", all three operations raise errors carrying that
message. -/
theorem c7_error_propagation_witness :
    ObiwanClient.create failNative 5 "" ""
      = .error (.runtimeError "Failed to create ObiwanClient: connection refused")
    ∧ ObiwanServer.create failNative true false "" "" ""
      = .error (.runtimeError "Failed to create ObiwanServer: connection refused")
    ∧ (ObiwanClient.request failNative ⟨some 1⟩ "gemini://example.com/").1
      = .error (.runtimeError "Request failed: connection refused") :=
  ⟨(c7_error_propagation failNative 5 "" "" "" "gemini://example.com/"
      "connection refused" true false 1).1 rfl rfl,
   (c7_error_propagation failNative 5 "" "" "" "gemini://example.com/"
      "connection refused" true false 1).2.2.1 rfl rfl,
   (c7_error_propagation failNative 5 "" "" "" "gemini://example.com/"
      "connection refused" true false 1).2.2.2.1 rfl rfl⟩

/-! ## C8: the broken binding variant can never load -/

/-- C8: `src/bindings/generated/obiwan.py` cannot be loaded — its first
status-constant statement `INPUT = 10 = 0` already fails Python compilation
(an integer literal is not a valid assignment target), the name `Natural` it
uses for two foreign-function signatures is not in scope, and since nothing in
a module that fails to compile ever executes, every operation the module
declares is uncallable. -/
theorem c8_generated_binding_unloadable :
    PyAssign.syntaxValid ⟨[.name "INPUT", .intLit 10], 0⟩ = false
    ∧ generatedModuleCompiles = false
    ∧ generatedModuleNames.contains "Natural" = false
    ∧ generatedModuleLoads = false
    ∧ (∀ op : String, generatedOpCallable op = false) := by
  refine ⟨by decide, by decide, by decide, by decide, ?_⟩
  intro op
  simp [generatedOpCallable, show generatedModuleLoads = false by decide]

/-! ## C9: requests after close fail locally; close is idempotent -/

/-- C9: after `close()`, every `request(url)` on that client raises
`RuntimeError "Client is closed"` making no native call, and a second
`close()` changes nothing and makes no native call. -/
theorem c9_closed_client (native : Native) (c : ObiwanClient) (url : String) :
    ObiwanClient.request native (ObiwanClient.close c).1 url
        = (.error (.runtimeError "Client is closed"), [])
    ∧ ObiwanClient.close (ObiwanClient.close c).1 = ((ObiwanClient.close c).1, []) := by
  obtain ⟨hd⟩ := c
  cases hd <;> simp [ObiwanClient.close, ObiwanClient.request]

/-! ## C10: body() is idempotent via its cache -/

/-- C10: once a `body()` call has produced a body, every later `body()` call
on the same `Response` returns the identical cached value and makes no native
call — including after the native handle has been released by `__del__`. -/
theorem c10_body_cached_idempotent (native : Native) (r : Response) (s : String)
    (hfirst : (r.body native).1 = some s) :
    (r.body native).2.1.body native = (some s, (r.body native).2.1, [])
    ∧ ((r.body native).2.1.release.1).body native
        = (some s, (r.body native).2.1.release.1, []) := by
  obtain ⟨hd, st, mt, bc⟩ := r
  cases hd with
  | none =>
      simp [Response.body] at hfirst
      simp [Response.body, Response.release, hfirst]
  | some h =>
      by_cases hg : bc = none ∧ st = (Status.SUCCESS : Nat)
      · simp only [Response.body, if_pos hg] at hfirst ⊢
        simp at hfirst
        simp [Response.body, Response.release, hfirst]
      · simp only [Response.body, if_neg hg] at hfirst ⊢
        simp [Response.body, Response.release, hfirst]

/-- C10 witness: on a 20 response with body `"hello"`, the second and third
`body()` calls (the last after release) return the cached `"hello"` with no
native call. -/
theorem c10_body_cached_idempotent_witness :
    ((Response.fromHandle baseNative 2).body baseNative).2.1.body baseNative
      = (some "hello", ((Response.fromHandle baseNative 2).body baseNative).2.1, [])
    ∧ (((Response.fromHandle baseNative 2).body baseNative).2.1.release.1).body baseNative
      = (some "hello", ((Response.fromHandle baseNative 2).body baseNative).2.1.release.1, []) :=
  c10_body_cached_idempotent baseNative (Response.fromHandle baseNative 2) "hello" (by decide)

/-! ## C3: which statuses carry a body -/

/-- A native library that delivers the forward-compatible success-class wire
status 21 with a body present on the wire. -/
def status21Native : Native :=
  { baseNative with getResponseStatus := fun _ => 21 }

/-- C3 counterexample: a `Response` whose status 21 has tens digit 2 (success
class) and whose connection carries body bytes, yet `body()` yields no body
and performs no native read — the code tests `status == Status.SUCCESS`
(the literal 20), not the tens digit. -/
theorem c3_counterexample_status21 :
    (Response.fromHandle status21Native 2).status / 10 = 2
    ∧ status21Native.getResponseBody 2 = some "hello"
    ∧ ((Response.fromHandle status21Native 2).body status21Native).1 = none
    ∧ ((Response.fromHandle status21Native 2).body status21Native).2.2 = [] := by
  refine ⟨by decide, rfl, by decide, by decide⟩

/-- C3 amended: `body()` yields the body bytes read from the connection
exactly for status equal to 20 (`Status.SUCCESS`); for every other status —
other success-class codes such as 21 included — it yields no body and reads
nothing (any body present on the wire is ignored). -/
theorem c3_body_only_status20 (native : Native) (h : Nat) :
    ((Response.fromHandle native h).status = 20 →
        ((Response.fromHandle native h).body native).1
            = some ((native.getResponseBody h).getD "")
        ∧ ((Response.fromHandle native h).body native).2.2
            = [NativeCall.getResponseBody h])
    ∧ ((Response.fromHandle native h).status ≠ 20 →
        ((Response.fromHandle native h).body native).1 = none
        ∧ ((Response.fromHandle native h).body native).2.2 = []) := by
  constructor
  · intro h20
    simp [Response.fromHandle, Response.body] at h20 ⊢
    simp [h20, Status.SUCCESS]
  · intro h20
    simp [Response.fromHandle, Response.body] at h20 ⊢
    simp [h20, Status.SUCCESS]

/-- C3 amended witness: at status 20 the body is delivered, at status 21 it is
not. -/
theorem c3_body_only_status20_witness :
    ((Response.fromHandle baseNative 2).body baseNative).1 = some "hello"
    ∧ ((Response.fromHandle status21Native 2).body status21Native).1 = none :=
  ⟨((c3_body_only_status20 baseNative 2).1 (by decide)).1,
   ((c3_body_only_status20 status21Native 2).2 (by decide)).1⟩

/-! ## C1: the redirect bound -/

theorem range_map_shift {α : Type} (u : Nat → α) (n : Nat) :
    (List.range (n + 1)).map u = u 0 :: (List.range n).map (fun i => u (i + 1)) := by
  rw [List.range_succ_eq_map, List.map_cons, List.map_map]
  rfl

theorem redirectLoop_not_redirect (server : String → SpecResponse) (R : Nat)
    (url : String) (h : statusClass (server url).status ≠ .redirect) :
    redirectLoop server R url = (.success (server url), [url]) := by
  cases R <;> simp [redirectLoop, h]

theorem redirectLoop_redirect_zero (server : String → SpecResponse) (url : String)
    (h : statusClass (server url).status = .redirect) :
    redirectLoop server 0 url = (.tooManyRedirects (server url), [url]) := by
  simp [redirectLoop, h]

theorem redirectLoop_redirect_succ (server : String → SpecResponse) (R : Nat)
    (url : String) (h : statusClass (server url).status = .redirect) :
    redirectLoop server (R + 1) url
      = ((redirectLoop server R (server url).meta).1,
          url :: (redirectLoop server R (server url).meta).2) := by
  simp [redirectLoop, h]

theorem redirectLoop_success_chain (server : String → SpecResponse) :
    ∀ (k : Nat) (R : Nat) (u : Nat → String), k ≤ R →
      (∀ i, i < k → statusClass (server (u i)).status = .redirect
          ∧ (server (u i)).meta = u (i + 1)) →
      statusClass (server (u k)).status ≠ .redirect →
      redirectLoop server R (u 0) = (.success (server (u k)), (List.range (k + 1)).map u)
  | 0, R, u, _, _, hstop => by
      rw [redirectLoop_not_redirect server R (u 0) hstop]
      simp [List.range_succ]
  | k + 1, R, u, hkR, hred, hstop => by
      obtain ⟨R', rfl⟩ : ∃ R', R = R' + 1 := ⟨R - 1, by omega⟩
      obtain ⟨hr0, hm0⟩ := hred 0 (Nat.succ_pos k)
      have hrest := redirectLoop_success_chain server k R' (fun i => u (i + 1))
        (by omega) (fun i hi => hred (i + 1) (by omega)) hstop
      simp only at hrest
      rw [redirectLoop_redirect_succ server R' (u 0) hr0, hm0, hrest]
      simp [range_map_shift]

theorem redirectLoop_exhausted_chain (server : String → SpecResponse) :
    ∀ (R : Nat) (u : Nat → String),
      (∀ i, i ≤ R → statusClass (server (u i)).status = .redirect
          ∧ (server (u i)).meta = u (i + 1)) →
      redirectLoop server R (u 0)
        = (.tooManyRedirects (server (u R)), (List.range (R + 1)).map u)
  | 0, u, hred => by
      rw [redirectLoop_redirect_zero server (u 0) (hred 0 (Nat.le_refl 0)).1]
      simp [List.range_succ]
  | R + 1, u, hred => by
      obtain ⟨hr0, hm0⟩ := hred 0 (Nat.zero_le _)
      have hrest := redirectLoop_exhausted_chain server R (fun i => u (i + 1))
        (fun i hi => hred (i + 1) (by omega))
      simp only at hrest
      rw [redirectLoop_redirect_succ server R (u 0) hr0, hm0, hrest]
      simp [range_map_shift]

/-- A server holding one redirect followed by a success: requesting the start
URL yields a 31 redirect to the end URL, which yields a 20 success. -/
def oneHopServer : String → SpecResponse := fun url =>
  if url = "gemini://start/" then ⟨31, "gemini://end/"⟩ else ⟨20, "text/gemini"⟩

/-- C1 counterexample: with `maxRedirects = 0` and a chain of exactly one
(= N + 1) redirect followed by a success, the loop does not return the
success: it stops with `TooManyRedirects` carrying the redirect response,
after the single initial request — as the claim's own final clause (a single
request, no redirect following) demands. -/
theorem c1_counterexample_zero_redirects :
    clientRequest oneHopServer 0 "gemini://start/"
      = (.tooManyRedirects ⟨31, "gemini://end/"⟩, ["gemini://start/"])
    ∧ (clientRequest oneHopServer 0 "gemini://start/").1.isSuccess = false := by
  constructor <;> decide

/-- C1 amended: for every `maxRedirects = N ≥ 0`, a chain of exactly N
redirect responses followed by a success is satisfied (with requests issued
to the start URL and the N redirect targets only), while a chain of N + 1
redirect responses produces `TooManyRedirects` carrying the (N+1)-th redirect
response, with no request ever issued beyond the N-th redirect target; in
particular `maxRedirects = 0` means a single request with no redirect
following. -/
theorem c1_redirect_bound (server : String → SpecResponse) (u : Nat → String) (N k : Nat) :
    (k ≤ N →
      (∀ i, i < k → statusClass (server (u i)).status = .redirect
          ∧ (server (u i)).meta = u (i + 1)) →
      statusClass (server (u k)).status ≠ .redirect →
      clientRequest server N (u 0) = (.success (server (u k)), (List.range (k + 1)).map u))
    ∧ ((∀ i, i ≤ N → statusClass (server (u i)).status = .redirect
          ∧ (server (u i)).meta = u (i + 1)) →
      clientRequest server N (u 0)
        = (.tooManyRedirects (server (u N)), (List.range (N + 1)).map u)) :=
  ⟨fun hkN hred hstop => redirectLoop_success_chain server k N u hkN hred hstop,
   fun hred => redirectLoop_exhausted_chain server N u hred⟩

/-- The URL sequence of the two-hop test server. -/
def twoHopUrls : Nat → String
  | 0 => "gemini://a/"
  | 1 => "gemini://b/"
  | _ => "gemini://c/"

/-- A server redirecting a → b → c, with a success at c. -/
def twoHopServer : String → SpecResponse := fun url =>
  if url = "gemini://a/" then ⟨31, "gemini://b/"⟩
  else if url = "gemini://b/" then ⟨31, "gemini://c/"⟩
  else ⟨20, "text/gemini"⟩

/-- C1 amended witness: on the a → b → c chain, `maxRedirects = 2` reaches the
success at c after three requests, while `maxRedirects = 1` stops with
`TooManyRedirects` carrying the second redirect, never requesting c. -/
theorem c1_redirect_bound_witness :
    clientRequest twoHopServer 2 "gemini://a/"
      = (.success ⟨20, "text/gemini"⟩, ["gemini://a/", "gemini://b/", "gemini://c/"])
    ∧ clientRequest twoHopServer 1 "gemini://a/"
      = (.tooManyRedirects ⟨31, "gemini://c/"⟩, ["gemini://a/", "gemini://b/"]) := by
  constructor
  · have h := (c1_redirect_bound twoHopServer twoHopUrls 2 2).1 (by omega)
      (by intro i hi
          interval_cases i <;> exact ⟨by decide, by decide⟩)
      (by decide)
    exact h
  · have h := (c1_redirect_bound twoHopServer twoHopUrls 1 0).2
      (by intro i hi
          interval_cases i <;> exact ⟨by decide, by decide⟩)
    exact h

end Obiwan
